import Mathlib

/-!
Shallow embedding of the OTP-authentication and session-token core of the
ASN Location Swap backend (src/main.py, src/schemas.py).

Conventions of the embedding:
- Wall-clock time (`int(time.time())`) is an explicit `Int` parameter `now`,
  seconds resolution.
- The MongoDB "otp" collection is a `List OtpRec`; `find_one` is `List.find?`
  (first match in insertion order), `delete_many {email}` is a filter, and
  `create_document` appends.
- The JWT layer (python-jose, HS256) is modelled abstractly: a well-formed
  signed token is `TokenStr.signed payload key`; any other byte string is
  `TokenStr.malformed`.  `jwt.decode` succeeds exactly when the token is
  well-formed, its key matches the verification key (the HMAC signature
  verifies), and the `exp` claim is not in the past (python-jose rejects a
  token iff `exp < now` with zero leeway).
- HTTP errors are carried in `Except`; `401` stands for the FastAPI
  `HTTPException(status_code=401, ...)` raised by `get_current_user`.
-/

/-- Claims payload of a JWT as built by `create_access_token`:
`{"sub": ..., "iat": ..., "exp": ...}`.  `sub` is optional because
`payload.get("sub")` in the validator may find no such claim. -/
structure JWTPayload where
  sub : Option String
  iat : Int
  exp : Int
deriving DecidableEq, Repr

/-- A token string as seen by `jose.jwt`: either a well-formed JWS signed
with some key, or any other (malformed) string. -/
inductive TokenStr where
  | signed (payload : JWTPayload) (key : String)
  | malformed (s : String)
deriving DecidableEq, Repr

/-- Model of `SECRET_KEY = os.getenv("AUTH_SECRET_KEY", "super-secret-key-change-me")`
(src/main.py line 17); the default value is used as the model's server key. -/
def SECRET_KEY : String := "super-secret-key-change-me"

/-- Model of `ALGORITHM = "HS256"` (src/main.py line 18). -/
def ALGORITHM : String := "HS256"

/-- Model of `ACCESS_TOKEN_EXPIRE_SECONDS = 60 * 60 * 24 * 7` (src/main.py line 19). -/
def ACCESS_TOKEN_EXPIRE_SECONDS : Int := 60 * 60 * 24 * 7

/-- Model of `jwt.decode(token, key, algorithms=[ALGORITHM])` evaluated at wall-clock
time `now`: fails (raises `JWTError`) on malformed structure or signature
mismatch, raises `ExpiredSignatureError` (a `JWTError`) iff `exp < now`,
otherwise returns the claims. -/
def jwt_decode (tok : TokenStr) (key : String) (now : Int) : Option JWTPayload :=
  match tok with
  | .malformed _ => none
  | .signed p k => if k = key then (if p.exp < now then none else some p) else none

/-- Model of `create_access_token` (src/main.py lines 66-69). -/
def create_access_token (now : Int) (email : String) : TokenStr :=
  .signed { sub := some email, iat := now, exp := now + ACCESS_TOKEN_EXPIRE_SECONDS } SECRET_KEY

/-- The value of an `Authorization` header after Python's
`authorization.split(" ", 1)`: either it contains no space (the 2-element
unpacking raises `ValueError`), or it splits into a scheme and the rest,
which the validator treats as a token string. -/
inductive AuthHeaderVal where
  | bare (s : String)
  | schemeAnd (scheme : String) (tok : TokenStr)
deriving DecidableEq, Repr

/-- Python's `str.lower()` (ASCII case folding on each character), as called
on the scheme in `get_current_user`. -/
def strLower (s : String) : String := ⟨s.data.map Char.toLower⟩

/-- Model of `get_current_user` (src/main.py lines 72-82), evaluated at time `now`.
`Except.error 401` models `HTTPException(status_code=401, ...)`; on success
the validator returns `payload.get("sub")`. -/
def get_current_user (now : Int) (authorization : Option AuthHeaderVal) :
    Except Nat (Option String) :=
  match authorization with
  | none => .error 401
  | some (.bare _) => .error 401
  | some (.schemeAnd scheme tok) =>
    if strLower scheme = "bearer" then
      match jwt_decode tok SECRET_KEY now with
      | some payload => .ok payload.sub
      | none => .error 401
    else .error 401

/-- Model of `GET /api/me` (src/main.py lines 151-153): depends on `get_current_user`
and returns `{"email": email}` with the validator's output. -/
def me (now : Int) (authorization : Option AuthHeaderVal) : Except Nat (Option String) :=
  match get_current_user now authorization with
  | .error c => .error c
  | .ok email => .ok email

/-- A document of the "otp" collection (src/schemas.py, class Otp), as
inserted by `request_otp`. -/
structure OtpRec where
  email : String
  code : String
  purpose : String
  expires_at : Int
deriving DecidableEq, Repr

/-- Model of `f"{n:06d}"` for `n = random.randint(0, 999999)` (src/main.py line 128):
the 6-digit zero-padded decimal representation.  For `n ≤ 999999` (the
entire range of `randint(0, 999999)`) this digit-extraction form is exactly
Python's zero-padded formatting. -/
def format06 (n : Nat) : String :=
  ⟨[Nat.digitChar (n / 100000 % 10), Nat.digitChar (n / 10000 % 10),
    Nat.digitChar (n / 1000 % 10), Nat.digitChar (n / 100 % 10),
    Nat.digitChar (n / 10 % 10), Nat.digitChar (n % 10)]⟩

/-- Model of `request_otp` (src/main.py lines 124-133), with the random draw `n`
(the result of `random.randint(0, 999999)`) and the wall clock `now` made
explicit.  Returns the generated code (the `debug_code` of the response)
and the new state of the "otp" collection. -/
def request_otp (now : Int) (n : Nat) (db : List OtpRec) (email : String) :
    String × List OtpRec :=
  let code := format06 n
  let expires_at := now + 600
  let db1 := db.filter (fun r => !(r.email == email))
  (code, db1 ++ [{ email := email, code := code, purpose := "login", expires_at := expires_at }])

/-- The two 400-level failures of `verify_otp`: "Kode OTP tidak valid"
(InvalidCode) and "Kode OTP kedaluwarsa" (CodeExpired). -/
inductive OtpError where
  | invalidCode
  | codeExpired
deriving DecidableEq, Repr

/-- The success body of `verify_otp`:
`{"access_token": token, "token_type": "bearer", "email": req.email}`. -/
structure TokenResponse where
  access_token : TokenStr
  token_type : String
  email : String
deriving DecidableEq, Repr

/-- Model of `verify_otp` (src/main.py lines 136-148), at wall-clock time `now`.
Returns the HTTP outcome together with the new state of the "otp"
collection. -/
def verify_otp (now : Int) (db : List OtpRec) (email code : String) :
    Except OtpError TokenResponse × List OtpRec :=
  match db.find? (fun r => r.email == email && r.code == code) with
  | none => (.error .invalidCode, db)
  | some r0 =>
    if now > r0.expires_at then
      (.error .codeExpired, db.filter (fun r => !(r.email == email)))
    else
      (.ok { access_token := create_access_token now email,
             token_type := "bearer", email := email },
       db.filter (fun r => !(r.email == email)))

/-- A document of the "userprofile" collection (src/schemas.py,
class Userprofile); also the shape of `profile.model_dump()` for a
`ProfileCreateRequest`. -/
structure Userprofile where
  email : String
  name : String
  nip : Option String
  agency : String
  position : String
  grade : String
  current_region : String
  desired_region : String
  is_subscribed : Bool
  is_verified : Bool
deriving DecidableEq, Repr

/-- Model of `update_one({"email": email}, {"$set": data})` on the "userprofile"
collection: replaces the first document matching the email with `data`
(the `$set` covers every field of the model dump). -/
def update_first (db : List Userprofile) (email : String) (data : Userprofile) :
    List Userprofile :=
  match db with
  | [] => []
  | p :: rest => if p.email == email then data :: rest else p :: update_first rest email data

/-- Model of `create_or_update_profile` (src/main.py lines 189-202): the body email is
overwritten with the token-derived email before any store write. -/
def create_or_update_profile (db : List Userprofile) (profile : Userprofile)
    (email : String) : String × List Userprofile :=
  let data := { profile with email := email }
  match db.find? (fun p => p.email == email) with
  | some _ => ("updated", update_first db email data)
  | none => ("created", db ++ [data])

/-! ### Helper lemmas -/

/-- Decoding a well-formed token signed with the server key succeeds exactly
when the token is unexpired. -/
lemma jwt_decode_signed_valid (p : JWTPayload) (now : Int) (h : ¬ p.exp < now) :
    jwt_decode (.signed p SECRET_KEY) SECRET_KEY now = some p := by
  simp [jwt_decode, h]

/-- The validator on a `Bearer`-scheme header reduces to the decode step. -/
lemma get_current_user_bearer (now : Int) (tok : TokenStr) :
    get_current_user now (some (.schemeAnd "Bearer" tok)) =
      match jwt_decode tok SECRET_KEY now with
      | some payload => .ok payload.sub
      | none => .error 401 := by
  have h : strLower "Bearer" = "bearer" := by decide
  simp [get_current_user, h]

/-- After `delete_many {"email": email}`, no further filter over that email
finds anything. -/
lemma filter_email_of_deleted (db : List OtpRec) (email : String) :
    (db.filter (fun r => !(r.email == email))).filter (fun r => r.email == email) = [] := by
  rw [List.filter_filter]
  simp

/-- After `delete_many {"email": email}`, `find_one {"email": email,
"code": code}` returns nothing, whatever the code. -/
lemma find_after_delete (db : List OtpRec) (email code : String) :
    (db.filter (fun r => !(r.email == email))).find?
      (fun r => r.email == email && r.code == code) = none := by
  rw [List.find?_eq_none]
  intro r hr
  rw [List.mem_filter] at hr
  simp only [Bool.not_eq_true', beq_eq_false_iff_ne, ne_eq] at hr
  simp [hr.2]

/-! ### Claims -/

/-- C7: the token minted by `create_access_token` carries payload
`{"sub": email, "iat": now, "exp": now + 604800}` and is signed with the
server-held symmetric secret under the `HS256` (HMAC-SHA-256) algorithm;
decoding it with the server key at mint time recovers that payload. -/
theorem C7_token_payload (now : Int) (email : String) :
    create_access_token now email
      = TokenStr.signed { sub := some email, iat := now, exp := now + 604800 } SECRET_KEY ∧
    ALGORITHM = "HS256" ∧
    jwt_decode (create_access_token now email) SECRET_KEY now
      = some { sub := some email, iat := now, exp := now + 604800 } := by
  have hc : ACCESS_TOKEN_EXPIRE_SECONDS = 604800 := by norm_num [ACCESS_TOKEN_EXPIRE_SECONDS]
  refine ⟨by simp [create_access_token, hc], rfl, ?_⟩
  rw [create_access_token, hc]
  exact jwt_decode_signed_valid _ _ (by show ¬ now + 604800 < now; omega)

/-- C1: a token minted for `email` at `tIssue`, presented as
`Authorization: Bearer <token>` at any `tCheck` up to the expiry instant
`tIssue + 604800`, authenticates and yields exactly `email`; one second
past expiry it is rejected with a 401. -/
theorem C1_token_authenticates_as_subject (email : String) (tIssue tCheck : Int)
    (h : tCheck ≤ tIssue + 604800) :
    get_current_user tCheck
        (some (.schemeAnd "Bearer" (create_access_token tIssue email)))
      = .ok (some email) ∧
    get_current_user (tIssue + 604800 + 1)
        (some (.schemeAnd "Bearer" (create_access_token tIssue email)))
      = .error 401 := by
  have hc : ACCESS_TOKEN_EXPIRE_SECONDS = 604800 := by norm_num [ACCESS_TOKEN_EXPIRE_SECONDS]
  constructor
  · rw [get_current_user_bearer, create_access_token, hc,
      jwt_decode_signed_valid _ _ (by show ¬ tIssue + 604800 < tCheck; omega)]
  · rw [get_current_user_bearer, create_access_token, hc]
    have hlt : (⟨some email, tIssue, tIssue + 604800⟩ : JWTPayload).exp < tIssue + 604800 + 1 := by
      show tIssue + 604800 < tIssue + 604800 + 1
      omega
    simp [jwt_decode, hlt]

/-- Witness for C1 at `email = "a@x.com"`, `tIssue = 0`, `tCheck = 604800`. -/
theorem C1_witness :
    get_current_user 604800
        (some (.schemeAnd "Bearer" (create_access_token 0 "a@x.com")))
      = .ok (some "a@x.com") ∧
    get_current_user ((0 : Int) + 604800 + 1)
        (some (.schemeAnd "Bearer" (create_access_token 0 "a@x.com")))
      = .error 401 :=
  C1_token_authenticates_as_subject "a@x.com" 0 604800 (by norm_num)

/-- C2: with a matching stored record, `verify_otp` compares seconds-resolution
wall-clock time against `expires_at` with an exclusive boundary: it fails with
`CodeExpired` exactly when `now > expires_at`, and succeeds with a token
exactly when `now ≤ expires_at` (so `now = expires_at` succeeds). -/
theorem C2_expiry_boundary_exclusive (now : Int) (db : List OtpRec) (email code : String)
    (r0 : OtpRec)
    (hfind : db.find? (fun r => r.email == email && r.code == code) = some r0) :
    ((verify_otp now db email code).1 = .error .codeExpired ↔ now > r0.expires_at) ∧
    ((verify_otp now db email code).1
        = .ok { access_token := create_access_token now email,
                token_type := "bearer", email := email }
      ↔ now ≤ r0.expires_at) := by
  by_cases h : now > r0.expires_at
  · exact ⟨by simp [verify_otp, hfind, h], by simp [verify_otp, hfind, h]⟩
  · refine ⟨by simp [verify_otp, hfind, h], ?_⟩
    simp [verify_otp, hfind, h]
    omega

/-- Witness for C2: at the exact boundary `now = expires_at = 1000` the
verification succeeds. -/
theorem C2_witness :
    (verify_otp 1000
        [{ email := "a@x.com", code := "123456", purpose := "login", expires_at := 1000 }]
        "a@x.com" "123456").1
      = .ok { access_token := create_access_token 1000 "a@x.com",
              token_type := "bearer", email := "a@x.com" } :=
  ((C2_expiry_boundary_exclusive 1000
      [{ email := "a@x.com", code := "123456", purpose := "login", expires_at := 1000 }]
      "a@x.com" "123456"
      { email := "a@x.com", code := "123456", purpose := "login", expires_at := 1000 }
      (by decide)).2).mpr (by decide)

/-- C3: verifying with the correct unexpired code succeeds, deletes every
passcode record for the identifier before minting the token, and a second
`verify_otp` with the same identifier and code afterwards fails with
`InvalidCode`. -/
theorem C3_single_use (now t2 : Int) (db : List OtpRec) (email code : String) (r0 : OtpRec)
    (hfind : db.find? (fun r => r.email == email && r.code == code) = some r0)
    (hvalid : now ≤ r0.expires_at) :
    (verify_otp now db email code).1
      = .ok { access_token := create_access_token now email,
              token_type := "bearer", email := email } ∧
    (verify_otp now db email code).2 = db.filter (fun r => !(r.email == email)) ∧
    (verify_otp t2 (verify_otp now db email code).2 email code).1
      = .error .invalidCode := by
  have hng : ¬ now > r0.expires_at := by omega
  have h2 : (verify_otp now db email code).2
      = db.filter (fun r => !(r.email == email)) := by
    simp [verify_otp, hfind, hng]
  refine ⟨by simp [verify_otp, hfind, hng], h2, ?_⟩
  rw [h2]
  simp only [verify_otp, find_after_delete]

/-- Witness for C3 on a one-record store. -/
theorem C3_witness :
    (verify_otp 500
        [{ email := "a@x.com", code := "123456", purpose := "login", expires_at := 1000 }]
        "a@x.com" "123456").1
      = .ok { access_token := create_access_token 500 "a@x.com",
              token_type := "bearer", email := "a@x.com" } ∧
    (verify_otp 500
        [{ email := "a@x.com", code := "123456", purpose := "login", expires_at := 1000 }]
        "a@x.com" "123456").2
      = List.filter (fun r => !(r.email == "a@x.com"))
          [{ email := "a@x.com", code := "123456", purpose := "login", expires_at := 1000 }] ∧
    (verify_otp 600
        (verify_otp 500
          [{ email := "a@x.com", code := "123456", purpose := "login", expires_at := 1000 }]
          "a@x.com" "123456").2
        "a@x.com" "123456").1
      = .error .invalidCode :=
  C3_single_use 500 600
    [{ email := "a@x.com", code := "123456", purpose := "login", expires_at := 1000 }]
    "a@x.com" "123456"
    { email := "a@x.com", code := "123456", purpose := "login", expires_at := 1000 }
    (by decide) (by decide)

/-- C5: with no record matching both identifier and code (exact string
equality), `verify_otp` fails with `InvalidCode` and leaves the passcode
store unchanged, even when other records for the identifier exist. -/
theorem C5_no_match_no_state_change (now : Int) (db : List OtpRec) (email code : String)
    (hfind : db.find? (fun r => r.email == email && r.code == code) = none) :
    (verify_otp now db email code).1 = .error .invalidCode ∧
    (verify_otp now db email code).2 = db := by
  constructor <;> simp [verify_otp, hfind]

/-- Witness for C5: a store holding a different code for the same identifier
is left untouched. -/
theorem C5_witness :
    (verify_otp 50
        [{ email := "a@x.com", code := "111111", purpose := "login", expires_at := 1000 }]
        "a@x.com" "123456").1 = .error .invalidCode ∧
    (verify_otp 50
        [{ email := "a@x.com", code := "111111", purpose := "login", expires_at := 1000 }]
        "a@x.com" "123456").2
      = [{ email := "a@x.com", code := "111111", purpose := "login", expires_at := 1000 }] :=
  C5_no_match_no_state_change 50
    [{ email := "a@x.com", code := "111111", purpose := "login", expires_at := 1000 }]
    "a@x.com" "123456" (by decide)

/-- C6: with a matching record but `now > expires_at`, `verify_otp` deletes
all passcode records for the identifier and fails with `CodeExpired`; a
subsequent call with the same identifier and code fails with `InvalidCode`
because the record is gone. -/
theorem C6_expired_deletes_then_invalid (now t2 : Int) (db : List OtpRec)
    (email code : String) (r0 : OtpRec)
    (hfind : db.find? (fun r => r.email == email && r.code == code) = some r0)
    (hexp : now > r0.expires_at) :
    (verify_otp now db email code).1 = .error .codeExpired ∧
    (verify_otp now db email code).2 = db.filter (fun r => !(r.email == email)) ∧
    (verify_otp t2 (verify_otp now db email code).2 email code).1
      = .error .invalidCode := by
  have h2 : (verify_otp now db email code).2
      = db.filter (fun r => !(r.email == email)) := by
    simp [verify_otp, hfind, hexp]
  refine ⟨by simp [verify_otp, hfind, hexp], h2, ?_⟩
  rw [h2]
  simp only [verify_otp, find_after_delete]

/-- Witness for C6 one second past expiry. -/
theorem C6_witness :
    (verify_otp 1001
        [{ email := "a@x.com", code := "123456", purpose := "login", expires_at := 1000 }]
        "a@x.com" "123456").1 = .error .codeExpired ∧
    (verify_otp 1001
        [{ email := "a@x.com", code := "123456", purpose := "login", expires_at := 1000 }]
        "a@x.com" "123456").2
      = List.filter (fun r => !(r.email == "a@x.com"))
          [{ email := "a@x.com", code := "123456", purpose := "login", expires_at := 1000 }] ∧
    (verify_otp 2000
        (verify_otp 1001
          [{ email := "a@x.com", code := "123456", purpose := "login", expires_at := 1000 }]
          "a@x.com" "123456").2
        "a@x.com" "123456").1
      = .error .invalidCode :=
  C6_expired_deletes_then_invalid 1001 2000
    [{ email := "a@x.com", code := "123456", purpose := "login", expires_at := 1000 }]
    "a@x.com" "123456"
    { email := "a@x.com", code := "123456", purpose := "login", expires_at := 1000 }
    (by decide) (by decide)

/-- Each character produced by `format06` is a decimal digit. -/
lemma format06_digits (n : Nat) : ((format06 n).data.all Char.isDigit) = true := by
  have h : ∀ m, m < 10 → (Nat.digitChar m).isDigit = true := by decide
  show ([Nat.digitChar (n / 100000 % 10), Nat.digitChar (n / 10000 % 10),
    Nat.digitChar (n / 1000 % 10), Nat.digitChar (n / 100 % 10),
    Nat.digitChar (n / 10 % 10), Nat.digitChar (n % 10)].all Char.isDigit) = true
  simp only [List.all_cons, List.all_nil, Bool.and_true]
  rw [h _ (Nat.mod_lt _ (by norm_num)), h _ (Nat.mod_lt _ (by norm_num)),
    h _ (Nat.mod_lt _ (by norm_num)), h _ (Nat.mod_lt _ (by norm_num)),
    h _ (Nat.mod_lt _ (by norm_num)), h _ (Nat.mod_lt _ (by norm_num))]
  rfl

/-- After one `request_otp`, the records for the identifier are exactly the
freshly inserted one. -/
lemma request_otp_records (now : Int) (n : Nat) (db : List OtpRec) (email : String) :
    ((request_otp now n db email).2.filter (fun r => r.email == email))
      = [{ email := email, code := format06 n, purpose := "login",
           expires_at := now + 600 }] := by
  simp only [request_otp]
  rw [List.filter_append, filter_email_of_deleted]
  simp

/-- After `request_otp` generated code `format06 n`, looking up any other code
for the identifier finds nothing. -/
lemma request_otp_find_other (now : Int) (n : Nat) (db : List OtpRec) (email c : String)
    (hc : c ≠ format06 n) :
    (request_otp now n db email).2.find? (fun r => r.email == email && r.code == c)
      = none := by
  rw [List.find?_eq_none]
  intro r hr
  simp only [request_otp] at hr
  rw [List.mem_append] at hr
  rcases hr with hr | hr
  · rw [List.mem_filter] at hr
    simp only [Bool.not_eq_true', beq_eq_false_iff_ne, ne_eq] at hr
    simp [hr.2]
  · simp only [List.mem_singleton] at hr
    subst hr
    simp [Ne.symm hc]

/-- C4: `request_otp` deletes all prior records for the identifier and inserts
exactly one record with a 6-digit numeric code, purpose `"login"` and
`expires_at = now + 600`; issuing twice leaves exactly the second record, and
(when the two draws yield different codes) the first code no longer
verifies. -/
theorem C4_issue_replaces (now1 now2 t : Int) (n1 n2 : Nat) (db : List OtpRec)
    (email : String) (hn1 : n1 ≤ 999999) (hn2 : n2 ≤ 999999)
    (hne : format06 n1 ≠ format06 n2) :
    ((request_otp now1 n1 db email).2.filter (fun r => r.email == email))
      = [{ email := email, code := format06 n1, purpose := "login",
           expires_at := now1 + 600 }] ∧
    (format06 n1).length = 6 ∧
    ((format06 n1).data.all Char.isDigit) = true ∧
    ((request_otp now2 n2 (request_otp now1 n1 db email).2 email).2.filter
        (fun r => r.email == email))
      = [{ email := email, code := format06 n2, purpose := "login",
           expires_at := now2 + 600 }] ∧
    (verify_otp t (request_otp now2 n2 (request_otp now1 n1 db email).2 email).2
        email (format06 n1)).1 = .error .invalidCode := by
  refine ⟨request_otp_records now1 n1 db email, rfl, format06_digits n1,
    request_otp_records now2 n2 _ email, ?_⟩
  simp only [verify_otp, request_otp_find_other now2 n2 _ email (format06 n1) hne]

/-- Witness for C4 with draws `n1 = 123456`, `n2 = 654321`. -/
theorem C4_witness :
    ((request_otp 100 123456 [] "a@x.com").2.filter (fun r => r.email == "a@x.com"))
      = [{ email := "a@x.com", code := format06 123456, purpose := "login",
           expires_at := 100 + 600 }] ∧
    (format06 123456).length = 6 ∧
    ((format06 123456).data.all Char.isDigit) = true ∧
    ((request_otp 200 654321 (request_otp 100 123456 [] "a@x.com").2 "a@x.com").2.filter
        (fun r => r.email == "a@x.com"))
      = [{ email := "a@x.com", code := format06 654321, purpose := "login",
           expires_at := 200 + 600 }] ∧
    (verify_otp 300
        (request_otp 200 654321 (request_otp 100 123456 [] "a@x.com").2 "a@x.com").2
        "a@x.com" (format06 123456)).1 = .error .invalidCode :=
  C4_issue_replaces 100 200 300 123456 654321 [] "a@x.com"
    (by norm_num) (by norm_num) (by decide)

/-- C8: the validator collapses every failure cause into the single 401
`Unauthenticated` outcome: missing header, header without a scheme prefix,
a non-Bearer scheme, a malformed token, a signature under the wrong key,
and an expired token. -/
theorem C8_single_unauthenticated_outcome (now : Int) (s scheme : String)
    (tok : TokenStr) (p : JWTPayload) (k : String) :
    get_current_user now none = .error 401 ∧
    get_current_user now (some (.bare s)) = .error 401 ∧
    (strLower scheme ≠ "bearer" →
      get_current_user now (some (.schemeAnd scheme tok)) = .error 401) ∧
    get_current_user now (some (.schemeAnd "Bearer" (.malformed s))) = .error 401 ∧
    (k ≠ SECRET_KEY →
      get_current_user now (some (.schemeAnd "Bearer" (.signed p k))) = .error 401) ∧
    (p.exp < now →
      get_current_user now (some (.schemeAnd "Bearer" (.signed p SECRET_KEY)))
        = .error 401) := by
  refine ⟨rfl, rfl, ?_, ?_, ?_, ?_⟩
  · intro h
    simp [get_current_user, h]
  · rw [get_current_user_bearer]
    rfl
  · intro h
    rw [get_current_user_bearer]
    simp [jwt_decode, h]
  · intro h
    rw [get_current_user_bearer]
    simp [jwt_decode, h]

/-- Witness for C8: a missing header, the header "tokenwithoutscheme", the
header "Basic xyz", the header "Bearer garbage", a token signed with an
attacker key, and a token one hundred seconds past expiry all yield 401. -/
theorem C8_witness :
    get_current_user 0 none = .error 401 ∧
    get_current_user 0 (some (.bare "tokenwithoutscheme")) = .error 401 ∧
    get_current_user 0 (some (.schemeAnd "Basic" (.malformed "xyz"))) = .error 401 ∧
    get_current_user 0 (some (.schemeAnd "Bearer" (.malformed "garbage"))) = .error 401 ∧
    get_current_user 0 (some (.schemeAnd "Bearer"
        (.signed { sub := some "a@x.com", iat := 0, exp := 100 } "attacker-key")))
      = .error 401 ∧
    get_current_user 200 (some (.schemeAnd "Bearer"
        (.signed { sub := some "a@x.com", iat := 0, exp := 100 } SECRET_KEY)))
      = .error 401 :=
  ⟨(C8_single_unauthenticated_outcome 0 "tokenwithoutscheme" "Basic" (.malformed "xyz")
      { sub := some "a@x.com", iat := 0, exp := 100 } "attacker-key").1,
   (C8_single_unauthenticated_outcome 0 "tokenwithoutscheme" "Basic" (.malformed "xyz")
      { sub := some "a@x.com", iat := 0, exp := 100 } "attacker-key").2.1,
   (C8_single_unauthenticated_outcome 0 "tokenwithoutscheme" "Basic" (.malformed "xyz")
      { sub := some "a@x.com", iat := 0, exp := 100 } "attacker-key").2.2.1 (by decide),
   (C8_single_unauthenticated_outcome 0 "garbage" "Basic" (.malformed "xyz")
      { sub := some "a@x.com", iat := 0, exp := 100 } "attacker-key").2.2.2.1,
   (C8_single_unauthenticated_outcome 0 "tokenwithoutscheme" "Basic" (.malformed "xyz")
      { sub := some "a@x.com", iat := 0, exp := 100 } "attacker-key").2.2.2.2.1
      (by decide),
   (C8_single_unauthenticated_outcome 200 "tokenwithoutscheme" "Basic" (.malformed "xyz")
      { sub := some "a@x.com", iat := 0, exp := 100 } "attacker-key").2.2.2.2.2
      (by decide)⟩

/-- Membership in the result of `update_one {"email": email} {"$set": data}`. -/
lemma mem_update_first (db : List Userprofile) (email : String)
    (data q : Userprofile) (hq : q ∈ update_first db email data) :
    q ∈ db ∨ q = data := by
  induction db with
  | nil => simp [update_first] at hq
  | cons p rest ih =>
    simp only [update_first] at hq
    by_cases h : p.email = email
    · simp only [h, beq_self_eq_true, if_true, List.mem_cons] at hq
      rcases hq with hq | hq
      · right; exact hq
      · left; exact List.mem_cons_of_mem _ hq
    · rw [if_neg (by simp [h])] at hq
      rcases List.mem_cons.mp hq with hq | hq
      · left; exact hq ▸ List.mem_cons_self p rest
      · rcases ih hq with h2 | h2
        · left; exact List.mem_cons_of_mem _ h2
        · right; exact h2

/-- C9: the profile write stores the token-derived email, not the body email:
two requests with the same token but different body emails act identically,
and every record the write leaves in the store either was already there or
carries the token email. -/
theorem C9_profile_email_from_token (db : List Userprofile) (p : Userprofile)
    (tok e1 e2 : String) :
    create_or_update_profile db { p with email := e1 } tok
      = create_or_update_profile db { p with email := e2 } tok ∧
    ((create_or_update_profile db p tok).2.all
        (fun q => db.contains q || (q.email == tok))) = true := by
  constructor
  · rfl
  · rw [List.all_eq_true]
    intro q hq
    simp only [create_or_update_profile] at hq
    cases hfind : db.find? (fun x => x.email == tok) with
    | some w =>
      rw [hfind] at hq
      simp only at hq
      rcases mem_update_first db tok _ q hq with h | h
      · simp [h]
      · subst h; simp
    | none =>
      rw [hfind] at hq
      simp only [List.mem_append, List.mem_singleton] at hq
      rcases hq with h | h
      · simp [h]
      · subst h; simp

/-- C10: a token with a valid signature and unexpired `exp` but no `sub`
claim passes the validator with result `None` instead of being rejected, so
`/api/me` answers 200 with a null email. -/
theorem C10_valid_token_without_sub (now iat0 exp0 : Int) (h : ¬ exp0 < now) :
    get_current_user now (some (.schemeAnd "Bearer"
        (.signed { sub := none, iat := iat0, exp := exp0 } SECRET_KEY))) = .ok none ∧
    me now (some (.schemeAnd "Bearer"
        (.signed { sub := none, iat := iat0, exp := exp0 } SECRET_KEY))) = .ok none := by
  have hg : get_current_user now (some (.schemeAnd "Bearer"
      (.signed { sub := none, iat := iat0, exp := exp0 } SECRET_KEY))) = .ok none := by
    rw [get_current_user_bearer, jwt_decode_signed_valid _ _ h]
  exact ⟨hg, by simp [me, hg]⟩

/-- Witness for C10 with an unexpired sub-less token. -/
theorem C10_witness :
    get_current_user 0 (some (.schemeAnd "Bearer"
        (.signed { sub := none, iat := 0, exp := 100 } SECRET_KEY))) = .ok none ∧
    me 0 (some (.schemeAnd "Bearer"
        (.signed { sub := none, iat := 0, exp := 100 } SECRET_KEY))) = .ok none :=
  C10_valid_token_without_sub 0 0 100 (by decide)

/-- Counterexample to C4 as stated: when the second random draw repeats the
first (here both draws are 123456), the code issued first is the same string
as the second and still verifies after the second issue, so "the first code
no longer verifies" fails without a distinct-draw proviso. -/
theorem C4_counterexample :
    (verify_otp 300
        (request_otp 200 123456 (request_otp 100 123456 [] "a@x.com").2 "a@x.com").2
        "a@x.com" (format06 123456)).1
      = .ok { access_token := create_access_token 300 "a@x.com",
              token_type := "bearer", email := "a@x.com" } := by
  rfl
